import Mathlib

/-!
Verification of the capacitor-screen-orientation plugin core. The two
native implementations (Android `CapacitorScreenOrientationPlugin.java`
and the iOS Swift plugin) are shallowly embedded: raw accelerometer
readings become rationals, the four canonical orientation strings become
an enumeration, plugin instance fields become an explicit state record,
and each callback or plugin method becomes a state-passing function
returning the list of `screenOrientationChange` payloads it emits.
-/

/-- Canonical orientation labels: the four `"portrait-primary"`,
`"portrait-secondary"`, `"landscape-primary"`, `"landscape-secondary"`
strings exchanged over the bridge. -/
inductive OrientationLabel
  | portraitPrimary
  | portraitSecondary
  | landscapePrimary
  | landscapeSecondary
deriving DecidableEq, Repr

/-- Labels whose string starts with `"landscape"`. -/
def isLandscapeLabel : OrientationLabel → Bool
  | .landscapePrimary => true
  | .landscapeSecondary => true
  | _ => false

/-- Labels whose string starts with `"portrait"`. -/
def isPortraitLabel : OrientationLabel → Bool
  | .portraitPrimary => true
  | .portraitSecondary => true
  | _ => false

/-- Result shape of `isOrientationLocked` on both platforms:
`physicalOrientation` is an optional key of the returned object. -/
structure LockStatus where
  locked : Bool
  physicalOrientation : Option OrientationLabel
  uiOrientation : OrientationLabel
deriving DecidableEq, Repr

/-- Outcome of a plugin call: `call.resolve()` or `call.reject(msg)`. -/
inductive CallResult
  | resolved
  | rejected (msg : String)
deriving DecidableEq, Repr

namespace Android

/-- Android `Configuration.ORIENTATION_PORTRAIT`. -/
def ORIENTATION_PORTRAIT : Int := 1

/-- Android `Configuration.ORIENTATION_LANDSCAPE`. -/
def ORIENTATION_LANDSCAPE : Int := 2

/-- Android `Surface.ROTATION_0`. -/
def ROTATION_0 : Int := 0

/-- Android `Surface.ROTATION_90`. -/
def ROTATION_90 : Int := 1

/-- Instance fields of `CapacitorScreenOrientationPlugin.java`, plus the
device facts the code consults (`accelerometer != null`). -/
structure AndroidState where
  currentOrientation : Int
  isTrackingMotion : Bool
  currentPhysicalOrientation : OrientationLabel
  lastNotifiedOrientation : Option OrientationLabel
  accelerometerAvailable : Bool
deriving DecidableEq, Repr

/-- State of a freshly loaded plugin: field initializers of the Java
class, with `currentOrientation` read from the live configuration. -/
def initialState (configOrientation : Int) (accelAvailable : Bool) : AndroidState :=
  { currentOrientation := configOrientation
    isTrackingMotion := false
    currentPhysicalOrientation := .portraitPrimary
    lastNotifiedOrientation := none
    accelerometerAvailable := accelAvailable }

/-- Threshold constant of `determinePhysicalOrientation` (raw sensor
units, `5.0f`). -/
def androidThreshold : ℚ := 5

/-- Java `determinePhysicalOrientation(float x, float y, float z)`:
landscape when `|x|` clears the threshold and dominates `|y|`, else
portrait when `|y|` clears the threshold, else the current physical
orientation (passed in here as the plugin field it reads). -/
def determinePhysicalOrientation (x y z : ℚ)
    (currentPhysicalOrientation : OrientationLabel) : OrientationLabel :=
  if |x| > androidThreshold ∧ |x| > |y| then
    if x > 0 then .landscapePrimary else .landscapeSecondary
  else if |y| > androidThreshold then
    if y > 0 then .portraitPrimary else .portraitSecondary
  else
    currentPhysicalOrientation

/-- Java `getCurrentOrientationType()`: coarse configuration orientation
plus display rotation to a canonical label. -/
def getCurrentOrientationType (rotation orientation : Int) : OrientationLabel :=
  if orientation = ORIENTATION_PORTRAIT then
    if rotation = ROTATION_0 then .portraitPrimary else .portraitSecondary
  else
    if rotation = ROTATION_90 then .landscapePrimary else .landscapeSecondary

/-- Java `startMotionTracking()`: no-op when already tracking or the
accelerometer is absent; otherwise sets the flag and registers the
sensor listener once. The `Nat` counts `registerListener` calls. -/
def startMotionTracking (s : AndroidState) : AndroidState × Nat :=
  if s.isTrackingMotion ∨ ¬ s.accelerometerAvailable then
    (s, 0)
  else
    ({ s with isTrackingMotion := true }, 1)

/-- Java `stopMotionTracking()`: no-op when not tracking; otherwise
clears the flag and unregisters the listener. -/
def stopMotionTracking (s : AndroidState) : AndroidState :=
  if ¬ s.isTrackingMotion then s
  else { s with isTrackingMotion := false }

/-- Java `startOrientationTracking(call)`: starts motion tracking only
when `bypassOrientationLock` (default `false`) is true. -/
def startOrientationTracking (bypassOrientationLock : Option Bool)
    (s : AndroidState) : AndroidState × Nat :=
  if bypassOrientationLock.getD false then startMotionTracking s else (s, 0)

/-- Java `stopOrientationTracking(call)`. -/
def stopOrientationTracking (s : AndroidState) : AndroidState :=
  stopMotionTracking s

/-- Java `onSensorChanged` body after the sample is classified into
`newOrientation`: updates `currentPhysicalOrientation` when it changed,
and inside that branch emits `{type: newOrientation}` when it also
differs from `lastNotifiedOrientation` (Java `equals` against a `null`
last-notified is `false`, i.e. a `none` never equals `some l`). -/
def onSample (s : AndroidState) (newOrientation : OrientationLabel) :
    AndroidState × List OrientationLabel :=
  if newOrientation ≠ s.currentPhysicalOrientation then
    if some newOrientation ≠ s.lastNotifiedOrientation then
      ({ s with
          currentPhysicalOrientation := newOrientation
          lastNotifiedOrientation := some newOrientation }, [newOrientation])
    else
      ({ s with currentPhysicalOrientation := newOrientation }, [])
  else
    (s, [])

/-- Java `onSensorChanged(event)` for an accelerometer event: classify
then run the tracker step. -/
def onSensorChanged (s : AndroidState) (x y z : ℚ) :
    AndroidState × List OrientationLabel :=
  onSample s (determinePhysicalOrientation x y z s.currentPhysicalOrientation)

/-- Java `handleOnConfigurationChanged(newConfig)`: skipped entirely
while motion tracking is active; otherwise emits the current orientation
type exactly when the coarse configuration orientation changed. -/
def handleOnConfigurationChanged (s : AndroidState)
    (newConfigOrientation rotation : Int) : AndroidState × List OrientationLabel :=
  if s.isTrackingMotion then
    (s, [])
  else if s.currentOrientation ≠ newConfigOrientation then
    ({ s with currentOrientation := newConfigOrientation },
      [getCurrentOrientationType rotation newConfigOrientation])
  else
    (s, [])

/-- Java `isOrientationLocked(call)`: with tracking active, compares the
tracked physical orientation against the UI orientation and includes the
`physicalOrientation` key; otherwise `locked` is `false` and the key is
absent. -/
def isOrientationLocked (s : AndroidState) (rotation orientation : Int) :
    LockStatus :=
  let uiOrientation := getCurrentOrientationType rotation orientation
  if s.isTrackingMotion then
    { locked := decide (s.currentPhysicalOrientation ≠ uiOrientation)
      physicalOrientation := some s.currentPhysicalOrientation
      uiOrientation := uiOrientation }
  else
    { locked := false
      physicalOrientation := none
      uiOrientation := uiOrientation }

/-- Java `getOrientationConstant(String)`: the `ActivityInfo` screen
orientation constants (`UNSPECIFIED = -1`, `LANDSCAPE = 0`,
`PORTRAIT = 1`, `NOSENSOR = 5`, `SENSOR_LANDSCAPE = 6`,
`SENSOR_PORTRAIT = 7`, `REVERSE_LANDSCAPE = 8`,
`REVERSE_PORTRAIT = 9`); total, defaulting to `UNSPECIFIED`. -/
def getOrientationConstant (orientationString : String) : Int :=
  match orientationString with
  | "any" => -1
  | "natural" => 5
  | "landscape" => 6
  | "portrait" => 7
  | "portrait-primary" => 1
  | "portrait-secondary" => 9
  | "landscape-primary" => 0
  | "landscape-secondary" => 8
  | _ => -1

/-- Java `lock(call)`: rejects when the `orientation` string is absent;
otherwise delegates to `setRequestedOrientation` (whose success the
boolean oracle `setRequestedOrientationOk` models — the preceding
`getOrientationConstant` is total and cannot throw), starts motion
tracking when `bypassOrientationLock` is true, and resolves; a platform
failure rejects before tracking starts. -/
def lock (orientation : Option String) (bypassOrientationLock : Option Bool)
    (setRequestedOrientationOk : Bool) (s : AndroidState) :
    CallResult × AndroidState :=
  match orientation with
  | none => (.rejected "Orientation parameter is required", s)
  | some _ =>
    if setRequestedOrientationOk then
      if bypassOrientationLock.getD false then
        (.resolved, (startMotionTracking s).1)
      else
        (.resolved, s)
    else
      (.rejected "Could not lock orientation", s)

end Android

/-- Swift `UIDeviceOrientation` cases the plugin distinguishes; the
face-up/face-down/unknown cases all fall to the `default` arms of the
mapping functions. -/
inductive UIDeviceOrientation
  | portrait
  | portraitUpsideDown
  | landscapeLeft
  | landscapeRight
  | faceUp
  | faceDown
  | unknown
deriving DecidableEq, Repr

namespace UIDeviceOrientation

/-- Swift extension `isValidInterfaceOrientation`: true on the four
rest orientations only. -/
def isValidInterfaceOrientation : UIDeviceOrientation → Bool
  | .portrait => true
  | .portraitUpsideDown => true
  | .landscapeLeft => true
  | .landscapeRight => true
  | _ => false

end UIDeviceOrientation

/-- Swift `UIInterfaceOrientation` cases the plugin distinguishes. -/
inductive UIInterfaceOrientation
  | portrait
  | portraitUpsideDown
  | landscapeLeft
  | landscapeRight
  | unknown
deriving DecidableEq, Repr

namespace Ios

/-- Swift `mapDeviceOrientationToString`: note the crossed landscape
arms (`landscapeLeft` → `"landscape-secondary"`,
`landscapeRight` → `"landscape-primary"`) with default
`"portrait-primary"`. -/
def mapDeviceOrientationToString : UIDeviceOrientation → OrientationLabel
  | .portrait => .portraitPrimary
  | .portraitUpsideDown => .portraitSecondary
  | .landscapeLeft => .landscapeSecondary
  | .landscapeRight => .landscapePrimary
  | _ => .portraitPrimary

/-- Swift `mapInterfaceOrientationToString`, default
`"portrait-primary"`. -/
def mapInterfaceOrientationToString : UIInterfaceOrientation → OrientationLabel
  | .portrait => .portraitPrimary
  | .portraitUpsideDown => .portraitSecondary
  | .landscapeLeft => .landscapePrimary
  | .landscapeRight => .landscapeSecondary
  | .unknown => .portraitPrimary

/-- Instance properties of the Swift plugin class, plus the device fact
the code consults (`motionManager.isAccelerometerAvailable`). -/
structure IosState where
  currentDeviceOrientation : UIDeviceOrientation
  isTrackingWithMotion : Bool
  lastNotifiedOrientation : Option OrientationLabel
  accelerometerAvailable : Bool
deriving DecidableEq, Repr

/-- State of a freshly loaded Swift plugin: property initializers. -/
def initialState (accelAvailable : Bool) : IosState :=
  { currentDeviceOrientation := .portrait
    isTrackingWithMotion := false
    lastNotifiedOrientation := none
    accelerometerAvailable := accelAvailable }

/-- Threshold constant of `determineOrientation` (`0.5`, in g units of
`CMAcceleration`). -/
def iosThreshold : ℚ := 1/2

/-- Swift `determineOrientation(from:)`: the x-axis guards run first,
with no comparison of `|x|` against `|y|`; below threshold on both axes
it returns the current device orientation (passed in here as the
property it reads). -/
def determineOrientation (x y z : ℚ)
    (currentDeviceOrientation : UIDeviceOrientation) : UIDeviceOrientation :=
  if x < -iosThreshold then .landscapeRight
  else if x > iosThreshold then .landscapeLeft
  else if y < -iosThreshold then .portrait
  else if y > iosThreshold then .portraitUpsideDown
  else currentDeviceOrientation

/-- Swift `getCurrentOrientationType()`: maps the window scene's
interface orientation (an environment input here). -/
def getCurrentOrientationType (io : UIInterfaceOrientation) : OrientationLabel :=
  mapInterfaceOrientationToString io

/-- Swift `notifyOrientationChange(fromDeviceOrientation:)`: maps the
device orientation to a string and emits it only when it differs from
`lastNotifiedOrientation` (a `nil` last-notified never equals a
string), recording it as last notified first. -/
def notifyOrientationChange (s : IosState) (deviceOrientation : UIDeviceOrientation) :
    IosState × List OrientationLabel :=
  let orientationType := mapDeviceOrientationToString deviceOrientation
  if some orientationType ≠ s.lastNotifiedOrientation then
    ({ s with lastNotifiedOrientation := some orientationType }, [orientationType])
  else
    (s, [])

/-- Body of the Swift accelerometer-update closure after the sample is
classified into `orientation`: when it differs from
`currentDeviceOrientation`, store it and notify. -/
def onClassifiedSample (s : IosState) (orientation : UIDeviceOrientation) :
    IosState × List OrientationLabel :=
  if orientation ≠ s.currentDeviceOrientation then
    notifyOrientationChange { s with currentDeviceOrientation := orientation } orientation
  else
    (s, [])

/-- Swift accelerometer-update closure for one raw sample: classify
then run the tracker step. -/
def accelerometerUpdate (s : IosState) (x y z : ℚ) :
    IosState × List OrientationLabel :=
  onClassifiedSample s (determineOrientation x y z s.currentDeviceOrientation)

/-- Swift `startMotionTracking()`: no-op when already tracking; creates
the motion manager, and only when the accelerometer is available sets
the flag and starts updates once. The `Nat` counts
`startAccelerometerUpdates` calls. -/
def startMotionTracking (s : IosState) : IosState × Nat :=
  if s.isTrackingWithMotion then
    (s, 0)
  else if s.accelerometerAvailable then
    ({ s with isTrackingWithMotion := true }, 1)
  else
    (s, 0)

/-- Swift `stopMotionTracking()`: no-op when not tracking; otherwise
stops updates, drops the motion manager and clears the flag. -/
def stopMotionTracking (s : IosState) : IosState :=
  if ¬ s.isTrackingWithMotion then s
  else { s with isTrackingWithMotion := false }

/-- Swift `startOrientationTracking(_:)`: starts motion tracking only
when `bypassOrientationLock` (default `false`) is true. -/
def startOrientationTracking (bypassOrientationLock : Option Bool)
    (s : IosState) : IosState × Nat :=
  if bypassOrientationLock.getD false then startMotionTracking s else (s, 0)

/-- Swift `stopOrientationTracking(_:)`. -/
def stopOrientationTracking (s : IosState) : IosState :=
  stopMotionTracking s

/-- Swift `orientationDidChange()`: skipped entirely while motion
tracking is active; otherwise notifies for the (environment-supplied)
device orientation when it is a valid interface orientation. It never
touches `currentDeviceOrientation`. -/
def orientationDidChange (s : IosState) (deviceOrientation : UIDeviceOrientation) :
    IosState × List OrientationLabel :=
  if s.isTrackingWithMotion then
    (s, [])
  else if deviceOrientation.isValidInterfaceOrientation then
    notifyOrientationChange s deviceOrientation
  else
    (s, [])

/-- Swift `isOrientationLocked(_:)`: with tracking active, compares the
mapped tracked device orientation against the UI orientation and
includes the `physicalOrientation` key; otherwise `locked` is `false`
and the key is absent. -/
def isOrientationLocked (s : IosState) (io : UIInterfaceOrientation) : LockStatus :=
  let uiOrientation := getCurrentOrientationType io
  if s.isTrackingWithMotion then
    let physicalOrientation := mapDeviceOrientationToString s.currentDeviceOrientation
    { locked := decide (physicalOrientation ≠ uiOrientation)
      physicalOrientation := some physicalOrientation
      uiOrientation := uiOrientation }
  else
    { locked := false
      physicalOrientation := none
      uiOrientation := uiOrientation }

/-- Swift `lock(_:)`: rejects when the `orientation` string is absent;
otherwise (the iOS mask lookup only logs — no platform call can fail)
starts motion tracking when `bypassOrientationLock` is true and
resolves. -/
def lock (orientation : Option String) (bypassOrientationLock : Option Bool)
    (s : IosState) : CallResult × IosState :=
  match orientation with
  | none => (.rejected "Orientation parameter is required", s)
  | some _ =>
    if bypassOrientationLock.getD false then
      (.resolved, (startMotionTracking s).1)
    else
      (.resolved, s)

end Ios

/-- Test harness: fold a step function over a list of inputs, starting
from a state, concatenating the events each step emits. Models a finite
sequence of sensor-service deliveries to a callback. -/
def runSteps {σ α : Type} (step : σ → α → σ × List OrientationLabel) :
    σ → List α → σ × List OrientationLabel
  | s, [] => (s, [])
  | s, a :: rest =>
    ((runSteps step (step s a).1 rest).1,
      (step s a).2 ++ (runSteps step (step s a).1 rest).2)

/-- Android: a finite sequence of classified samples through
`onSample`. -/
def Android.runSamples (s : Android.AndroidState) (ls : List OrientationLabel) :
    Android.AndroidState × List OrientationLabel :=
  runSteps Android.onSample s ls

/-- Also for iOS: a finite sequence of classified samples through
`onClassifiedSample`. -/
def Ios.runClassified (s : Ios.IosState) (ds : List UIDeviceOrientation) :
    Ios.IosState × List OrientationLabel :=
  runSteps Ios.onClassifiedSample s ds

/-- An event list with no two consecutive equal entries, where the
first entry also differs from the given previously notified value. -/
def ChainFrom (o : Option OrientationLabel) : List OrientationLabel → Prop
  | [] => True
  | a :: rest => some a ≠ o ∧ ChainFrom (some a) rest

lemma chainFrom_chain' :
    ∀ (e : List OrientationLabel) (o : Option OrientationLabel),
      ChainFrom o e → List.Chain' (· ≠ ·) e := by
  intro e
  induction e with
  | nil => intro o _; simp
  | cons a rest ih =>
    intro o h
    cases rest with
    | nil => simp
    | cons b r =>
      obtain ⟨_, h2⟩ := h
      rw [List.chain'_cons]
      refine ⟨fun hab => h2.1 (by rw [hab]), ih (some a) h2⟩

/-- Key dedup property of a tracker step: either it emits nothing and
leaves the last-notified value alone, or it emits a single label that
differs from the last-notified value and becomes it. -/
def DedupStep {σ α : Type} (lastN : σ → Option OrientationLabel)
    (step : σ → α → σ × List OrientationLabel) : Prop :=
  ∀ s a, ((step s a).2 = [] ∧ lastN (step s a).1 = lastN s) ∨
    (∃ l, (step s a).2 = [l] ∧ some l ≠ lastN s ∧ lastN (step s a).1 = some l)

lemma runSteps_chainFrom {σ α : Type} (lastN : σ → Option OrientationLabel)
    (step : σ → α → σ × List OrientationLabel) (hstep : DedupStep lastN step) :
    ∀ (ls : List α) (s : σ), ChainFrom (lastN s) (runSteps step s ls).2 := by
  intro ls
  induction ls with
  | nil => intro s; simp [runSteps, ChainFrom]
  | cons a rest ih =>
    intro s
    rcases hstep s a with ⟨he, hl⟩ | ⟨l, he, hne, hl⟩
    · have h := ih (step s a).1
      rw [hl] at h
      simpa [runSteps, he] using h
    · have h := ih (step s a).1
      rw [hl] at h
      simpa [runSteps, he, ChainFrom] using ⟨hne, h⟩

lemma android_onSample_dedupStep :
    DedupStep Android.AndroidState.lastNotifiedOrientation Android.onSample := by
  intro s l
  by_cases h1 : l = s.currentPhysicalOrientation
  · left; simp [Android.onSample, h1]
  · by_cases h2 : some l = s.lastNotifiedOrientation
    · left; simp [Android.onSample, h1, h2]
    · right; exact ⟨l, by simp [Android.onSample, h1, h2]⟩

lemma ios_onClassifiedSample_dedupStep :
    DedupStep Ios.IosState.lastNotifiedOrientation Ios.onClassifiedSample := by
  intro s d
  by_cases h1 : d = s.currentDeviceOrientation
  · left; simp [Ios.onClassifiedSample, h1]
  · by_cases h2 : some (Ios.mapDeviceOrientationToString d) = s.lastNotifiedOrientation
    · left; simp [Ios.onClassifiedSample, Ios.notifyOrientationChange, h1, h2]
    · right
      exact ⟨Ios.mapDeviceOrientationToString d,
        by simp [Ios.onClassifiedSample, Ios.notifyOrientationChange, h1, h2]⟩

/-- C1: on both platforms `isOrientationLocked` reports `locked = true`
exactly when motion tracking is active and the tracked physical
orientation differs from the UI-reported orientation; the
`physicalOrientation` key is present exactly when tracking is active,
and `uiOrientation` is always the platform's current UI orientation. -/
theorem isOrientationLocked_contract :
    ∀ (s : Android.AndroidState) (rotation orientation : Int)
      (t : Ios.IosState) (io : UIInterfaceOrientation),
    ((Android.isOrientationLocked s rotation orientation).locked = true ↔
      s.isTrackingMotion = true ∧
        s.currentPhysicalOrientation ≠
          (Android.isOrientationLocked s rotation orientation).uiOrientation) ∧
    ((Android.isOrientationLocked s rotation orientation).physicalOrientation =
      if s.isTrackingMotion then some s.currentPhysicalOrientation else none) ∧
    ((Android.isOrientationLocked s rotation orientation).uiOrientation =
      Android.getCurrentOrientationType rotation orientation) ∧
    ((Ios.isOrientationLocked t io).locked = true ↔
      t.isTrackingWithMotion = true ∧
        Ios.mapDeviceOrientationToString t.currentDeviceOrientation ≠
          (Ios.isOrientationLocked t io).uiOrientation) ∧
    ((Ios.isOrientationLocked t io).physicalOrientation =
      if t.isTrackingWithMotion then
        some (Ios.mapDeviceOrientationToString t.currentDeviceOrientation)
      else none) ∧
    ((Ios.isOrientationLocked t io).uiOrientation = Ios.getCurrentOrientationType io) := by
  intro s rotation orientation t io
  cases hs : s.isTrackingMotion <;> cases ht : t.isTrackingWithMotion <;>
    simp [Android.isOrientationLocked, Ios.isOrientationLocked, hs, ht]

/-- Concrete instance of the lock-detection contract: tracking active
with physical `landscape-primary` against portrait UI reports
`locked = true`. -/
theorem isOrientationLocked_contract_witness :
    (Android.isOrientationLocked
      { currentOrientation := 1, isTrackingMotion := true,
        currentPhysicalOrientation := .landscapePrimary,
        lastNotifiedOrientation := none, accelerometerAvailable := true }
      0 1).locked = true :=
  (isOrientationLocked_contract
    { currentOrientation := 1, isTrackingMotion := true,
      currentPhysicalOrientation := .landscapePrimary,
      lastNotifiedOrientation := none, accelerometerAvailable := true }
    0 1 (Ios.initialState true) .portrait).1.mpr ⟨rfl, by decide⟩

/-- C2: both classifiers are total onto the four labels (the iOS one
stays within the four valid interface orientations when fed one), and
on a sample with both horizontal components at or below the threshold
each returns the supplied previous value unchanged. -/
theorem classifier_totality_hysteresis :
    ∀ (x y z : ℚ) (prev : OrientationLabel) (d : UIDeviceOrientation),
    (Android.determinePhysicalOrientation x y z prev = .portraitPrimary ∨
      Android.determinePhysicalOrientation x y z prev = .portraitSecondary ∨
      Android.determinePhysicalOrientation x y z prev = .landscapePrimary ∨
      Android.determinePhysicalOrientation x y z prev = .landscapeSecondary) ∧
    (|x| ≤ Android.androidThreshold ∧ |y| ≤ Android.androidThreshold →
      Android.determinePhysicalOrientation x y z prev = prev) ∧
    (d.isValidInterfaceOrientation = true →
      (Ios.determineOrientation x y z d).isValidInterfaceOrientation = true) ∧
    (|x| ≤ Ios.iosThreshold ∧ |y| ≤ Ios.iosThreshold →
      Ios.determineOrientation x y z d = d) := by
  intro x y z prev d
  refine ⟨?_, ?_, ?_, ?_⟩
  · cases h : Android.determinePhysicalOrientation x y z prev <;> simp
  · rintro ⟨hx, hy⟩
    have h1 : ¬ (|x| > Android.androidThreshold ∧ |x| > |y|) :=
      fun h => absurd h.1 (not_lt.mpr hx)
    have h2 : ¬ (|y| > Android.androidThreshold) := not_lt.mpr hy
    simp [Android.determinePhysicalOrientation, h1, h2]
  · intro hd
    unfold Ios.determineOrientation
    split
    · rfl
    · split
      · rfl
      · split
        · rfl
        · split
          · rfl
          · exact hd
  · rintro ⟨hx, hy⟩
    obtain ⟨hx1, hx2⟩ := abs_le.mp hx
    obtain ⟨hy1, hy2⟩ := abs_le.mp hy
    have n1 : ¬ (x < -Ios.iosThreshold) := by rw [not_lt]; linarith
    have n2 : ¬ (x > Ios.iosThreshold) := by rw [not_lt]; linarith
    have n3 : ¬ (y < -Ios.iosThreshold) := by rw [not_lt]; linarith
    have n4 : ¬ (y > Ios.iosThreshold) := by rw [not_lt]; linarith
    simp [Ios.determineOrientation, n1, n2, n3, n4]

/-- Concrete instance of classifier hysteresis: below-threshold samples
keep the previous value on both platforms. -/
theorem classifier_totality_hysteresis_witness :
    Android.determinePhysicalOrientation 1 2 0 .portraitSecondary = .portraitSecondary ∧
    Ios.determineOrientation (1/4) 0 0 .portrait = .portrait :=
  ⟨(classifier_totality_hysteresis 1 2 0 .portraitSecondary .portrait).2.1
      ⟨by norm_num [Android.androidThreshold, abs_le],
        by norm_num [Android.androidThreshold, abs_le]⟩,
    (classifier_totality_hysteresis (1/4) 0 0 .portraitSecondary .portrait).2.2.2
      ⟨by norm_num [Ios.iosThreshold, abs_le], by norm_num [Ios.iosThreshold, abs_le]⟩⟩

/-- C4: any finite sequence of classified samples fed to either
tracker emits an event sequence with no two consecutive equal
payloads. -/
theorem dedup_invariant :
    ∀ (s : Android.AndroidState) (ls : List OrientationLabel)
      (t : Ios.IosState) (ds : List UIDeviceOrientation),
    List.Chain' (· ≠ ·) (Android.runSamples s ls).2 ∧
    List.Chain' (· ≠ ·) (Ios.runClassified t ds).2 := by
  intro s ls t ds
  exact ⟨chainFrom_chain' _ _
      (runSteps_chainFrom _ _ android_onSample_dedupStep ls s),
    chainFrom_chain' _ _
      (runSteps_chainFrom _ _ ios_onClassifiedSample_dedupStep ds t)⟩

/-- Concrete instance of the dedup invariant: a run of repeated
landscape samples emits the label once. -/
theorem dedup_invariant_witness :
    List.Chain' (· ≠ ·)
      (Android.runSamples (Android.initialState 1 true)
        [.landscapePrimary, .landscapePrimary, .portraitPrimary]).2 ∧
    (Android.runSamples (Android.initialState 1 true)
      [.landscapePrimary, .landscapePrimary, .portraitPrimary]).2 =
      [.landscapePrimary, .portraitPrimary] :=
  ⟨(dedup_invariant (Android.initialState 1 true)
      [.landscapePrimary, .landscapePrimary, .portraitPrimary]
      (Ios.initialState true) []).1,
    by decide⟩

/-- C8: on both platforms `lock` rejects with the human-readable
message `"Orientation parameter is required"` when the `orientation`
option is absent, and resolves when it is present and the platform
call succeeds (on iOS no platform call can fail). -/
theorem lock_error_handling :
    ∀ (bypass : Option Bool) (s : Android.AndroidState) (ok : Bool)
      (t : Ios.IosState) (str : String),
    (Android.lock none bypass ok s).1 =
      .rejected "Orientation parameter is required" ∧
    (ok = true → (Android.lock (some str) bypass ok s).1 = .resolved) ∧
    (Ios.lock none bypass t).1 =
      .rejected "Orientation parameter is required" ∧
    (Ios.lock (some str) bypass t).1 = .resolved := by
  intro bypass s ok t str
  refine ⟨rfl, ?_, rfl, ?_⟩
  · rintro rfl
    by_cases hb : bypass.getD false <;> simp [Android.lock, hb]
  · by_cases hb : bypass.getD false <;> simp [Ios.lock, hb]

/-- Concrete instance of the lock error contract: a present orientation
with a succeeding platform call resolves. -/
theorem lock_error_handling_witness :
    (Android.lock (some "portrait") none true (Android.initialState 1 true)).1 =
      .resolved :=
  (lock_error_handling none (Android.initialState 1 true) true
    (Ios.initialState true) "portrait").2.1 rfl

/-- C9: on a rightward-tilt sample (positive x above each platform's
landscape threshold: `9.81` raw units on Android is `1` g on iOS) the
Android classifier answers `landscape-primary` while the iOS classifier
composed with `mapDeviceOrientationToString` answers
`landscape-secondary` — both landscape, but different labels. -/
theorem landscape_sign_divergence :
    Android.determinePhysicalOrientation (981/100) 0 0 .portraitPrimary =
      .landscapePrimary ∧
    Ios.determineOrientation 1 0 0 .portrait = .landscapeLeft ∧
    Ios.mapDeviceOrientationToString (Ios.determineOrientation 1 0 0 .portrait) =
      .landscapeSecondary ∧
    Android.determinePhysicalOrientation (981/100) 0 0 .portraitPrimary ≠
      Ios.mapDeviceOrientationToString (Ios.determineOrientation 1 0 0 .portrait) ∧
    isLandscapeLabel
      (Android.determinePhysicalOrientation (981/100) 0 0 .portraitPrimary) = true ∧
    isLandscapeLabel
      (Ios.mapDeviceOrientationToString (Ios.determineOrientation 1 0 0 .portrait)) =
      true := by
  have ha : Android.determinePhysicalOrientation (981/100) 0 0 .portraitPrimary =
      .landscapePrimary := by
    have h1 : |(981/100 : ℚ)| > Android.androidThreshold ∧
        |(981/100 : ℚ)| > |(0 : ℚ)| := by
      rw [abs_of_pos (by norm_num : (0:ℚ) < 981/100)]
      norm_num [Android.androidThreshold]
    simp only [Android.determinePhysicalOrientation]
    rw [if_pos h1, if_pos (by norm_num : (981/100 : ℚ) > 0)]
  have hi : Ios.determineOrientation 1 0 0 .portrait = .landscapeLeft := by
    simp only [Ios.determineOrientation]
    rw [if_neg (by norm_num [Ios.iosThreshold]), if_pos (by norm_num [Ios.iosThreshold])]
  refine ⟨ha, hi, ?_, ?_, ?_, ?_⟩ <;>
    simp [ha, hi, Ios.mapDeviceOrientationToString, isLandscapeLabel]

/-- C10: the Android UI path emits an event exactly when motion
tracking is inactive and the coarse configuration orientation changed;
with an unchanged coarse orientation — as in a 180-degree flip within
the same portrait or landscape category — it emits nothing, tracking
active or not. -/
theorem ui_path_coarse_only :
    ∀ (s : Android.AndroidState) (n rotation : Int),
    ((Android.handleOnConfigurationChanged s n rotation).2 ≠ [] ↔
      s.isTrackingMotion = false ∧ s.currentOrientation ≠ n) ∧
    (Android.handleOnConfigurationChanged s s.currentOrientation rotation).2 = [] := by
  intro s n rotation
  cases hs : s.isTrackingMotion <;>
    by_cases hn : s.currentOrientation = n <;>
    simp [Android.handleOnConfigurationChanged, hs, hn]

/-- Concrete instance of the coarse-only UI path: a configuration
callback whose coarse orientation equals the stored one — the shape of
a 180-degree flip — emits nothing on an inactive tracker. -/
theorem ui_path_coarse_only_witness :
    (Android.handleOnConfigurationChanged (Android.initialState 1 true) 1 2).2 = [] :=
  (ui_path_coarse_only (Android.initialState 1 true) 1 2).2

/-- C3 counterexample: the sample `(x, y) = (1, 2)` (in g units) has
both magnitudes above the iOS threshold with `|y| > |x|`, yet the iOS
classifier answers landscape, not portrait — its x-axis guard runs
first and never compares `|x|` against `|y|`. -/
theorem classifier_axis_priority_counterexample :
    |(1 : ℚ)| > Ios.iosThreshold ∧ |(2 : ℚ)| > Ios.iosThreshold ∧
    |(2 : ℚ)| > |(1 : ℚ)| ∧
    Ios.determineOrientation 1 2 0 .portrait = .landscapeLeft ∧
    isPortraitLabel
      (Ios.mapDeviceOrientationToString (Ios.determineOrientation 1 2 0 .portrait)) =
      false ∧
    isLandscapeLabel
      (Ios.mapDeviceOrientationToString (Ios.determineOrientation 1 2 0 .portrait)) =
      true := by
  have hi : Ios.determineOrientation 1 2 0 .portrait = .landscapeLeft := by
    simp only [Ios.determineOrientation]
    rw [if_neg (by norm_num [Ios.iosThreshold]), if_pos (by norm_num [Ios.iosThreshold])]
  refine ⟨?_, ?_, ?_, hi, ?_, ?_⟩ <;>
    simp [hi, Ios.mapDeviceOrientationToString, isPortraitLabel, isLandscapeLabel,
      Ios.iosThreshold, abs_le] <;> norm_num

/-- C3 (amended): the Android classifier follows the axis-priority
algorithm — landscape exactly on the branch where `|x|` clears the
threshold and dominates `|y|` (sign of x picking the label), else
portrait when `|y|` clears the threshold (sign of y picking the label),
else the previous value; so with both axes above threshold and
`|y| > |x|` it answers portrait. The iOS classifier instead tests the
x-axis first with no magnitude comparison: whenever `|x|` clears its
threshold the answer is landscape, so with both above threshold and
`|y| > |x|` it answers landscape. -/
theorem classifier_axis_priority :
    ∀ (x y z : ℚ) (prev : OrientationLabel) (d : UIDeviceOrientation),
    (|x| > Android.androidThreshold ∧ |x| > |y| →
      Android.determinePhysicalOrientation x y z prev =
        (if x > 0 then .landscapePrimary else .landscapeSecondary)) ∧
    (¬ (|x| > Android.androidThreshold ∧ |x| > |y|) →
      |y| > Android.androidThreshold →
      Android.determinePhysicalOrientation x y z prev =
        (if y > 0 then .portraitPrimary else .portraitSecondary)) ∧
    (¬ (|x| > Android.androidThreshold ∧ |x| > |y|) →
      ¬ (|y| > Android.androidThreshold) →
      Android.determinePhysicalOrientation x y z prev = prev) ∧
    (|x| > Android.androidThreshold ∧ |y| > Android.androidThreshold ∧ |y| > |x| →
      isPortraitLabel (Android.determinePhysicalOrientation x y z prev) = true) ∧
    (x < -Ios.iosThreshold → Ios.determineOrientation x y z d = .landscapeRight) ∧
    (x > Ios.iosThreshold → Ios.determineOrientation x y z d = .landscapeLeft) ∧
    (x > Ios.iosThreshold ∧ |y| > Ios.iosThreshold ∧ |y| > |x| →
      isLandscapeLabel
        (Ios.mapDeviceOrientationToString (Ios.determineOrientation x y z d)) =
        true) := by
  intro x y z prev d
  have hleft : ∀ h : x > Ios.iosThreshold,
      Ios.determineOrientation x y z d = .landscapeLeft := by
    intro h
    have hn : ¬ (x < -Ios.iosThreshold) := by
      rw [not_lt]
      have : (0:ℚ) < Ios.iosThreshold := by norm_num [Ios.iosThreshold]
      linarith
    simp only [Ios.determineOrientation]
    rw [if_neg hn, if_pos h]
  refine ⟨?_, ?_, ?_, ?_, ?_, hleft, ?_⟩
  · intro h
    simp only [Android.determinePhysicalOrientation]
    rw [if_pos h]
  · intro h1 h2
    simp only [Android.determinePhysicalOrientation]
    rw [if_neg h1, if_pos h2]
  · intro h1 h2
    simp only [Android.determinePhysicalOrientation]
    rw [if_neg h1, if_neg h2]
  · rintro ⟨hx, hy, hxy⟩
    have h1 : ¬ (|x| > Android.androidThreshold ∧ |x| > |y|) := by
      rintro ⟨-, hc⟩
      exact absurd hc (not_lt.mpr (le_of_lt hxy))
    simp only [Android.determinePhysicalOrientation]
    rw [if_neg h1, if_pos hy]
    split <;> simp [isPortraitLabel]
  · intro h
    simp only [Ios.determineOrientation]
    rw [if_pos h]
  · rintro ⟨hx, -, -⟩
    rw [hleft hx]
    simp [Ios.mapDeviceOrientationToString, isLandscapeLabel]

/-- Concrete instance of the amended axis-priority claim: with
`(x, y) = (6, 7)` (both above the Android threshold, `|y| > |x|`) the
Android classifier answers portrait while the analogous g-unit sample
`(0.6, 0.7)` makes the iOS classifier answer landscape. -/
theorem classifier_axis_priority_witness :
    isPortraitLabel
      (Android.determinePhysicalOrientation 6 7 0 .portraitPrimary) = true ∧
    isLandscapeLabel
      (Ios.mapDeviceOrientationToString
        (Ios.determineOrientation (6/10) (7/10) 0 .portrait)) = true :=
  by
  constructor
  · apply (classifier_axis_priority 6 7 0 .portraitPrimary .portrait).2.2.2.1
    refine ⟨?_, ?_, ?_⟩
    · rw [abs_of_pos (by norm_num : (0:ℚ) < 6)]
      norm_num [Android.androidThreshold]
    · rw [abs_of_pos (by norm_num : (0:ℚ) < 7)]
      norm_num [Android.androidThreshold]
    · rw [abs_of_pos (by norm_num : (0:ℚ) < 7), abs_of_pos (by norm_num : (0:ℚ) < 6)]
      norm_num
  · apply (classifier_axis_priority (6/10) (7/10) 0
      .portraitPrimary .portrait).2.2.2.2.2.2
    refine ⟨?_, ?_, ?_⟩
    · norm_num [Ios.iosThreshold]
    · rw [abs_of_pos (by norm_num : (0:ℚ) < 7/10)]
      norm_num [Ios.iosThreshold]
    · rw [abs_of_pos (by norm_num : (0:ℚ) < 7/10),
        abs_of_pos (by norm_num : (0:ℚ) < 6/10)]
      norm_num

/-- C5 counterexample: on the activated freshly-loaded Android plugin
(physical default `portrait-primary`, nothing notified yet) a sample
classifying to `portrait-primary` differs from `lastNotified` but emits
nothing — emission is additionally gated on the label differing from
`currentPhysicalOrientation`. -/
theorem onSample_contract_counterexample :
    (Android.onSample
      (Android.startMotionTracking (Android.initialState 1 true)).1
      .portraitPrimary).2 = [] ∧
    (Android.startMotionTracking
      (Android.initialState 1 true)).1.lastNotifiedOrientation ≠
      some OrientationLabel.portraitPrimary ∧
    (Android.startMotionTracking (Android.initialState 1 true)).1.isTrackingMotion =
      true := by
  decide

/-- C5 (amended): the tracker step leaves `currentPhysical` equal to
the sample's label, and emits `{type: label}` — recording it as last
notified — exactly when the label differs both from the previous
`currentPhysical` and from `lastNotified`; otherwise it emits nothing
and leaves `lastNotified` unchanged. -/
theorem onSample_contract :
    ∀ (s : Android.AndroidState) (l : OrientationLabel)
      (t : Ios.IosState) (d : UIDeviceOrientation),
    (Android.onSample s l).1.currentPhysicalOrientation = l ∧
    ((Android.onSample s l).2 = [l] ↔
      l ≠ s.currentPhysicalOrientation ∧ some l ≠ s.lastNotifiedOrientation) ∧
    ((Android.onSample s l).2 = [l] →
      (Android.onSample s l).1.lastNotifiedOrientation = some l) ∧
    ((Android.onSample s l).2 = [] ∨ (Android.onSample s l).2 = [l]) ∧
    ((Android.onSample s l).2 = [] →
      (Android.onSample s l).1.lastNotifiedOrientation = s.lastNotifiedOrientation) ∧
    (Ios.onClassifiedSample t d).1.currentDeviceOrientation = d ∧
    ((Ios.onClassifiedSample t d).2 = [Ios.mapDeviceOrientationToString d] ↔
      d ≠ t.currentDeviceOrientation ∧
        some (Ios.mapDeviceOrientationToString d) ≠ t.lastNotifiedOrientation) := by
  intro s l t d
  by_cases h1 : l = s.currentPhysicalOrientation <;>
    by_cases h2 : some l = s.lastNotifiedOrientation <;>
    by_cases h3 : d = t.currentDeviceOrientation <;>
    by_cases h4 : some (Ios.mapDeviceOrientationToString d) =
      t.lastNotifiedOrientation <;>
    simp_all [Android.onSample, Ios.onClassifiedSample, Ios.notifyOrientationChange]

/-- Concrete instance of the amended step contract: a landscape sample
on the fresh state emits once. -/
theorem onSample_contract_witness :
    (Android.onSample (Android.initialState 1 true) .landscapePrimary).2 =
      [.landscapePrimary] :=
  (onSample_contract (Android.initialState 1 true) .landscapePrimary
    (Ios.initialState true) .portrait).2.1.mpr ⟨by decide, by decide⟩

/-- C6: while motion tracking is active neither platform's UI
notification path emits anything; after `stopMotionTracking` the flag
is down and a UI notification that clears the remaining guards (a
changed coarse orientation on Android; a valid, not-last-notified
device orientation on iOS) emits again. -/
theorem mutual_exclusion :
    ∀ (s : Android.AndroidState) (n rotation : Int)
      (t : Ios.IosState) (d : UIDeviceOrientation),
    (s.isTrackingMotion = true →
      (Android.handleOnConfigurationChanged s n rotation).2 = []) ∧
    ((Android.stopMotionTracking s).isTrackingMotion = false) ∧
    ((Android.stopMotionTracking s).currentOrientation ≠ n →
      (Android.handleOnConfigurationChanged
        (Android.stopMotionTracking s) n rotation).2 ≠ []) ∧
    (t.isTrackingWithMotion = true → (Ios.orientationDidChange t d).2 = []) ∧
    ((Ios.stopMotionTracking t).isTrackingWithMotion = false) ∧
    (d.isValidInterfaceOrientation = true →
      some (Ios.mapDeviceOrientationToString d) ≠
        (Ios.stopMotionTracking t).lastNotifiedOrientation →
      (Ios.orientationDidChange (Ios.stopMotionTracking t) d).2 ≠ []) := by
  intro s n rotation t d
  have hstopA : (Android.stopMotionTracking s).isTrackingMotion = false := by
    cases hs : s.isTrackingMotion <;> simp [Android.stopMotionTracking, hs]
  have hstopI : (Ios.stopMotionTracking t).isTrackingWithMotion = false := by
    cases ht : t.isTrackingWithMotion <;> simp [Ios.stopMotionTracking, ht]
  refine ⟨?_, hstopA, ?_, ?_, hstopI, ?_⟩
  · intro hs
    simp [Android.handleOnConfigurationChanged, hs]
  · intro hn
    simp [Android.handleOnConfigurationChanged, hstopA, hn]
  · intro ht
    simp [Ios.orientationDidChange, ht]
  · intro hv hne
    simp [Ios.orientationDidChange, Ios.notifyOrientationChange, hstopI, hv, hne]

/-- Concrete instance of mutual exclusion: after stopping tracking, a
coarse configuration change emits again on Android, and a valid device
rotation emits again on iOS. -/
theorem mutual_exclusion_witness :
    (Android.handleOnConfigurationChanged
      (Android.stopMotionTracking
        (Android.startMotionTracking (Android.initialState 1 true)).1) 2 1).2 ≠ [] ∧
    (Ios.orientationDidChange
      (Ios.stopMotionTracking
        (Ios.startMotionTracking (Ios.initialState true)).1) .landscapeLeft).2 ≠ [] :=
  ⟨(mutual_exclusion
      (Android.startMotionTracking (Android.initialState 1 true)).1 2 1
      (Ios.startMotionTracking (Ios.initialState true)).1 .landscapeLeft).2.2.1
      (by decide),
    (mutual_exclusion
      (Android.startMotionTracking (Android.initialState 1 true)).1 2 1
      (Ios.startMotionTracking (Ios.initialState true)).1 .landscapeLeft).2.2.2.2.2
      (by decide) (by decide)⟩

/-- C7: on both platforms, calling
`startOrientationTracking({bypassOrientationLock: true})` twice in a
row never subscribes twice — the second call subscribes zero times and
changes no state — and from an idle state with the sensor available
the pair establishes exactly one subscription, the first call having
activated tracking. -/
theorem start_idempotent :
    ∀ (s : Android.AndroidState) (t : Ios.IosState),
    (Android.startOrientationTracking (some true) s).2 +
      (Android.startOrientationTracking (some true)
        (Android.startOrientationTracking (some true) s).1).2 ≤ 1 ∧
    ((Android.startOrientationTracking (some true)
        (Android.startOrientationTracking (some true) s).1).2 = 0) ∧
    ((Android.startOrientationTracking (some true)
        (Android.startOrientationTracking (some true) s).1).1 =
      (Android.startOrientationTracking (some true) s).1) ∧
    (s.isTrackingMotion = false → s.accelerometerAvailable = true →
      (Android.startOrientationTracking (some true) s).2 +
        (Android.startOrientationTracking (some true)
          (Android.startOrientationTracking (some true) s).1).2 = 1 ∧
      (Android.startOrientationTracking (some true) s).1.isTrackingMotion = true) ∧
    (Ios.startOrientationTracking (some true) t).2 +
      (Ios.startOrientationTracking (some true)
        (Ios.startOrientationTracking (some true) t).1).2 ≤ 1 ∧
    ((Ios.startOrientationTracking (some true)
        (Ios.startOrientationTracking (some true) t).1).2 = 0) ∧
    ((Ios.startOrientationTracking (some true)
        (Ios.startOrientationTracking (some true) t).1).1 =
      (Ios.startOrientationTracking (some true) t).1) ∧
    (t.isTrackingWithMotion = false → t.accelerometerAvailable = true →
      (Ios.startOrientationTracking (some true) t).2 +
        (Ios.startOrientationTracking (some true)
          (Ios.startOrientationTracking (some true) t).1).2 = 1 ∧
      (Ios.startOrientationTracking (some true) t).1.isTrackingWithMotion = true) := by
  intro s t
  cases hs : s.isTrackingMotion <;> cases ha : s.accelerometerAvailable <;>
    cases ht : t.isTrackingWithMotion <;> cases hb : t.accelerometerAvailable <;>
    simp_all [Android.startOrientationTracking, Android.startMotionTracking,
      Ios.startOrientationTracking, Ios.startMotionTracking]

/-- Concrete instance of idempotent start: from the fresh state the
double call subscribes exactly once in total. -/
theorem start_idempotent_witness :
    (Android.startOrientationTracking (some true) (Android.initialState 1 true)).2 +
      (Android.startOrientationTracking (some true)
        (Android.startOrientationTracking (some true)
          (Android.initialState 1 true)).1).2 = 1 ∧
    (Ios.startOrientationTracking (some true) (Ios.initialState true)).2 +
      (Ios.startOrientationTracking (some true)
        (Ios.startOrientationTracking (some true) (Ios.initialState true)).1).2 = 1 :=
  ⟨((start_idempotent (Android.initialState 1 true)
        (Ios.initialState true)).2.2.2.1 rfl rfl).1,
    ((start_idempotent (Android.initialState 1 true)
        (Ios.initialState true)).2.2.2.2.2.2.2 rfl rfl).1⟩
